import Mathlib

/-!
Verification of the resumable signing workflow in `bulk_multiplle_file.py`.

The embedding models the core components of the script:
`SigningPerformanceTest.retry_with_backoff` (retry engine),
`SigningPerformanceTest._record_timing` (timing recorder),
`CheckpointData.save`/`CheckpointData.load` (checkpoint store),
`SigningPerformanceTest._execute_request_signing` (signing-request step),
`SigningPerformanceTest._execute_check_status` (status polling), and the
step loop plus the `finally` block of `SigningPerformanceTest.run`.

Wall-clock timestamps and real sleeping are abstracted: a sleep shows up as a
`RetryEvent.sleep t` event carrying the exact duration the code would pass to
`time.sleep`, with durations as rationals (the Python floats enter only as the
backoff factor, and every claim is about exact multiples of it).
-/

set_option autoImplicit false

namespace BulkSign

/-- Failure classification used by `retry_with_backoff` (lines 346-376).
`http s` is a `requests.exceptions.HTTPError` whose response has status `s`;
`network` covers `ConnectionError`/`Timeout`/`RequestException`; `other` is
any other exception (the final `except Exception` arm, also used for the
`ValueError`s the script raises itself). -/
inductive ApiError where
  | http (status : Nat)
  | network
  | other
  deriving DecidableEq, Repr

/-- Observable events of one `retry_with_backoff` call: `sleep t` is a call
`time.sleep t` (line 342), `exec` is one execution of the wrapped action
(line 344). -/
inductive RetryEvent where
  | sleep (t : ℚ)
  | exec
  deriving DecidableEq, Repr

/-- Result of a `retry_with_backoff` call: `ok` is a normal return, `raised e`
re-raises an underlying error, and `exhausted op n` is the
`Exception(f"Max retries (n) exceeded for op")` at line 378. -/
inductive RetryResult (α : Type) where
  | ok (v : α)
  | raised (e : ApiError)
  | exhausted (op : String) (maxRetries : Nat)
  deriving DecidableEq, Repr

/-- Number of action executions recorded in an event trace. -/
def execCount : List RetryEvent → Nat
  | [] => 0
  | .exec :: t => execCount t + 1
  | .sleep _ :: t => execCount t

/-- Body of the `for attempt in range(max_retries + 1)` loop of
`retry_with_backoff` (lines 336-376), recursing on the number of remaining
loop iterations (`remaining = maxRetries + 1 - attempt` at every call site).
`action a` is the outcome of executing the wrapped function on attempt `a`;
`refresh a` is the outcome of `self._get_access_token()` when called on
attempt `a`. Reaching `remaining = 0` means the loop finished without
returning, which triggers the final `raise Exception(...)` at line 378. -/
def retryAux {α : Type} (action : Nat → Except ApiError α)
    (refresh : Nat → Except ApiError Unit) (op : String) (maxRetries : Nat)
    (f : ℚ) : Nat → Nat → List RetryEvent × RetryResult α
  | 0, _ => ([], .exhausted op maxRetries)
  | remaining + 1, attempt =>
    let waits : List RetryEvent :=
      if 0 < attempt then [.sleep ((2 ^ attempt : ℚ) * f)] else []
    let halt : RetryResult α → List RetryEvent × RetryResult α :=
      fun r => (waits ++ [.exec], r)
    let recur : List RetryEvent × RetryResult α :=
      let next := retryAux action refresh op maxRetries f remaining (attempt + 1)
      (waits ++ [.exec] ++ next.1, next.2)
    match action attempt with
    | .ok v => halt (.ok v)
    | .error (.http s) =>
      if s = 401 then
        match refresh attempt with
        | .ok _ => recur
        | .error te => if attempt = maxRetries then halt (.raised te) else recur
      else if 400 ≤ s ∧ s < 500 then halt (.raised (.http s))
      else if attempt = maxRetries then halt (.raised (.http s)) else recur
    | .error .network =>
      if attempt = maxRetries then halt (.raised .network) else recur
    | .error .other => halt (.raised .other)

/-- `SigningPerformanceTest.retry_with_backoff` (lines 331-378): run the loop
from attempt 0 with `maxRetries + 1` iterations available, returning the event
trace and the final outcome. -/
def retry_with_backoff {α : Type} (action : Nat → Except ApiError α)
    (refresh : Nat → Except ApiError Unit) (op : String) (maxRetries : Nat)
    (f : ℚ) : List RetryEvent × RetryResult α :=
  retryAux action refresh op maxRetries f (maxRetries + 1) 0

/-- `TimingResult` (lines 95-111), restricted to the fields the claims speak
about; the wall-clock fields (`start_time`, `end_time`, `duration`) measure
real time, which the embedding does not model. -/
structure TimingResult where
  operation : String
  status : String
  deriving DecidableEq, Repr

/-- `SigningPerformanceTest._record_timing` (lines 380-409): execute the
action; on success append a `SUCCESS` record, on failure append a `FAILED`
record (the `finally` block at lines 393-407 runs in both cases) and re-raise
the triggering error. Returns the propagated outcome together with the
updated `self.timings` list. -/
def record_timing {α : Type} (operation : String) (act : Except ApiError α)
    (timings : List TimingResult) : Except ApiError α × List TimingResult :=
  match act with
  | .ok v => (.ok v, timings ++ [⟨operation, "SUCCESS"⟩])
  | .error e => (.error e, timings ++ [⟨operation, "FAILED"⟩])

/-- The fragment of JSON reachable from `asdict(CheckpointData(...))`: every
field of `CheckpointData` is a string or a list of strings. -/
inductive JsonValue where
  | str (s : String)
  | arr (xs : List JsonValue)
  | obj (fields : List (String × JsonValue))

/-- `CheckpointData` (lines 185-215; the file defines the same dataclass
twice, lines 114-144 being an identical earlier copy). -/
structure CheckpointData where
  request_id : String
  access_token : String
  user_token : String
  uploaded_files : List String
  completed_steps : List String
  last_completed_step : String
  timestamp : String
  id_rsa : String
  deriving DecidableEq, Repr

/-- Dictionary lookup, as `cls(**data)` reads fields from the parsed JSON
object by name. -/
def lookupField (fields : List (String × JsonValue)) (k : String) :
    Option JsonValue :=
  (fields.find? (fun p => p.1 == k)).map Prod.snd

/-- Decode a JSON string. -/
def asStr : JsonValue → Option String
  | .str s => some s
  | _ => none

/-- Decode each element of a list of JSON values as a string. -/
def decodeStrList : List JsonValue → Option (List String)
  | [] => some []
  | j :: t => do
    let s ← asStr j
    let rest ← decodeStrList t
    pure (s :: rest)

/-- Decode a JSON array of strings. -/
def asStrList : JsonValue → Option (List String)
  | .arr xs => decodeStrList xs
  | _ => none

/-- `CheckpointData.save` (lines 197-202): set `self.timestamp` to the
current time, then write `json.dump(asdict(self))`. The produced JSON object
is returned in place of the file contents. -/
def CheckpointData.saveJson (c : CheckpointData) (now : String) : JsonValue :=
  .obj [("request_id", .str c.request_id),
        ("access_token", .str c.access_token),
        ("user_token", .str c.user_token),
        ("uploaded_files", .arr (c.uploaded_files.map .str)),
        ("completed_steps", .arr (c.completed_steps.map .str)),
        ("last_completed_step", .str c.last_completed_step),
        ("timestamp", .str now),
        ("id_rsa", .str c.id_rsa)]

/-- `CheckpointData.load` (lines 204-215): parse the JSON file and rebuild the
dataclass with `cls(**data)`; any malformed content yields `None`. -/
def CheckpointData.loadJson (j : JsonValue) : Option CheckpointData :=
  match j with
  | .obj fields => do
    let rid ← lookupField fields "request_id" >>= asStr
    let atk ← lookupField fields "access_token" >>= asStr
    let utk ← lookupField fields "user_token" >>= asStr
    let ufs ← lookupField fields "uploaded_files" >>= asStrList
    let cst ← lookupField fields "completed_steps" >>= asStrList
    let lcs ← lookupField fields "last_completed_step" >>= asStr
    let tms ← lookupField fields "timestamp" >>= asStr
    let irs ← lookupField fields "id_rsa" >>= asStr
    pure ⟨rid, atk, utk, ufs, cst, lcs, tms, irs⟩
  | _ => none

/-- `SigningTestState` (lines 84-92). -/
structure SigningTestState where
  access_token : String
  user_token : String
  uploaded_files : List String
  request_id : String
  user_identifier : String
  id_rsa : String
  deriving DecidableEq, Repr

/-- The extraction `auth_url.split("id=")[1].split("&")[0]` at line 698;
`none` is the `IndexError` Python raises when the URL has no `"id="`. -/
def extractId (url : String) : Option String :=
  match url.splitOn "id=" with
  | _ :: second :: _ => some ((second.splitOn "&").headD "")
  | _ => none

/-- The inner `do_request` of `_execute_request_signing` (lines 673-705).
`server a` is the upstream response on attempt `a`: an error for a failed
HTTP call, `some url` for a response whose `auth_urls[0]["url"]` is `url`,
and `none` for a response with no `auth_urls` (which triggers the
`ValueError` at line 695, an ordinary non-HTTP exception). On success the
extracted signing identifier is returned. -/
def requestSignAttempt (server : Nat → Except ApiError (Option String))
    (attempt : Nat) : Except ApiError String :=
  match server attempt with
  | .error e => .error e
  | .ok none => .error .other
  | .ok (some url) =>
    match extractId url with
    | some i => .ok i
    | none => .error .other

/-- `SigningPerformanceTest._execute_request_signing` (lines 649-710) acting
on the workflow state and the checkpoint. Returns the updated state, the
updated checkpoint, the number of signing-request submissions performed, and
the propagated outcome. If the checkpoint already holds a signing identifier
(line 652) the step restores it and returns without submitting; with no
uploaded files it raises `ValueError` (line 660); otherwise `do_request` runs
through the retry engine, and on success both `state.id_rsa` (line 698) and
`checkpoint.id_rsa` (line 703) receive the extracted identifier. -/
def execute_request_signing (s : SigningTestState) (cp : CheckpointData)
    (server : Nat → Except ApiError (Option String))
    (refresh : Nat → Except ApiError Unit) (maxRetries : Nat) (f : ℚ) :
    SigningTestState × CheckpointData × Nat × Except ApiError Unit :=
  if cp.id_rsa ≠ "" then
    ({ s with id_rsa := cp.id_rsa }, cp, 0, .ok ())
  else if s.uploaded_files = [] then
    (s, cp, 0, .error .other)
  else
    let r := retry_with_backoff (requestSignAttempt server) refresh
      "Request Sign" maxRetries f
    match r.2 with
    | .ok i => ({ s with id_rsa := i }, { cp with id_rsa := i },
                execCount r.1, .ok ())
    | .raised e => (s, cp, execCount r.1, .error e)
    | .exhausted _ _ => (s, cp, execCount r.1, .error .other)

/-- Terminal outcome of `_execute_check_status`: the `break` at line 843 on a
`"DONE"` message, or falling out of the `while` at line 807 (`timeout`). -/
inductive PollOutcome where
  | done
  | timeout
  deriving DecidableEq, Repr

/-- The `while counter < max_status_checks` loop of `_execute_check_status`
(lines 807-850), recursing on the remaining iterations and carrying the
`counter` value. `check k` is the outcome of status check number `k` (the
retry-wrapped `do_check`); an error outcome is swallowed by the
`except Exception ... pass` at lines 845-848 and polling continues. -/
def checkStatusAux (check : Nat → Except ApiError String) :
    Nat → Nat → Nat × PollOutcome
  | 0, counter => (counter, .timeout)
  | remaining + 1, counter =>
    match check (counter + 1) with
    | .ok msg =>
      if msg = "DONE" then (counter + 1, .done)
      else checkStatusAux check remaining (counter + 1)
    | .error _ => checkStatusAux check remaining (counter + 1)

/-- `SigningPerformanceTest._execute_check_status` (lines 797-855): poll from
`counter = 0` with `max_status_checks` iterations available, returning the
number of status checks performed and the terminal outcome. -/
def execute_check_status (check : Nat → Except ApiError String)
    (maxChecks : Nat) : Nat × PollOutcome :=
  checkStatusAux check maxChecks 0

/-- One status check run through the retry engine with the doubled budget
`max_retries * 2` of line 838: `do_check c a` is the raw check outcome for
check number `c` on retry attempt `a`. The `exhausted` outcome is the generic
`Exception` of line 378. -/
def statusCheckOnce (do_check : Nat → Nat → Except ApiError String)
    (refresh : Nat → Except ApiError Unit) (maxRetries : Nat) (f : ℚ)
    (counter : Nat) : Except ApiError String :=
  match (retry_with_backoff (do_check counter) refresh "Status Check"
      (maxRetries * 2) f).2 with
  | .ok m => .ok m
  | .raised e => .error e
  | .exhausted _ _ => .error .other

/-- `_execute_check_status` as a workflow step: every raise path inside the
loop body is caught by the `except Exception ... pass` at lines 845-848 and
both loop exits (line 843 and line 851) return normally, so the step's
embedding is total and never produces an error. -/
def execute_check_status_step (check : Nat → Except ApiError String)
    (maxChecks : Nat) : Except ApiError (Nat × PollOutcome) :=
  .ok (execute_check_status check maxChecks)

/-- Replace every failing status check by a successful non-terminal
`"PENDING"` answer; used to state that per-check failures are swallowed. -/
def errorsAsPending (check : Nat → Except ApiError String) :
    Nat → Except ApiError String :=
  fun n =>
    match check n with
    | .error _ => .ok "PENDING"
    | .ok m => .ok m

/-- One iteration of the step loop of `SigningPerformanceTest.run`
(lines 562-581): run the step through `_record_timing`; if it returns, append
the step name to `completed_steps` (if not present) and set
`last_completed_step`; if it raises, propagate (lines 585-589). The
checkpoint write of line 581 persists the returned checkpoint value. -/
def run_step {α : Type} (name : String) (act : Except ApiError α)
    (cp : CheckpointData) (ts : List TimingResult) :
    Except ApiError CheckpointData × List TimingResult :=
  let r := record_timing name act ts
  match r.1 with
  | .ok _ =>
    (.ok { cp with
        completed_steps :=
          if name ∈ cp.completed_steps then cp.completed_steps
          else cp.completed_steps ++ [name],
        last_completed_step := name }, r.2)
  | .error e => (.error e, r.2)

/-- The `finally` block of `SigningPerformanceTest.run` (lines 590-604) as a
transformer of the durable-storage flag "a checkpoint file exists". When the
run was not interrupted, `_save_checkpoint()` (line 593) writes the file; in
the completion branch guarded by `"Check Sign Status" in completed_steps`
(line 598) the `os.remove("checkpoint.json")` call at line 601 is commented
out in the source, so only a log line runs and the file stays on disk. -/
def run_finalize (interrupted : Bool) (checkpointOnDisk : Bool)
    (cp : CheckpointData) : Bool :=
  if interrupted then checkpointOnDisk
  else
    let onDisk := true
    if "Check Sign Status" ∈ cp.completed_steps then
      onDisk
    else onDisk

@[simp] theorem execCount_nil : execCount [] = 0 := rfl

@[simp] theorem execCount_exec (t : List RetryEvent) :
    execCount (.exec :: t) = execCount t + 1 := rfl

@[simp] theorem execCount_sleep (q : ℚ) (t : List RetryEvent) :
    execCount (.sleep q :: t) = execCount t := rfl

@[simp] theorem execCount_append (l₁ l₂ : List RetryEvent) :
    execCount (l₁ ++ l₂) = execCount l₁ + execCount l₂ := by
  induction l₁ with
  | nil => simp
  | cons e t ih =>
    cases e with
    | sleep q => simp [ih]
    | exec => simp [ih]; omega

theorem execCount_waits (attempt : Nat) (q : ℚ) :
    execCount (if 0 < attempt then [RetryEvent.sleep q] else []) = 0 := by
  split <;> rfl

/-- For an action that always fails with a non-401, non-4xx HTTP error, every
loop iteration takes the server-error branch, so the loop runs all its
remaining iterations and re-raises the underlying error on the last one. -/
theorem retryAux_server_error (α : Type) (s : Nat) (h401 : ¬ s = 401)
    (hcl : ¬ (400 ≤ s ∧ s < 500)) (refresh : Nat → Except ApiError Unit)
    (op : String) (maxR : Nat) (f : ℚ) :
    ∀ remaining attempt, 0 < remaining → attempt + remaining = maxR + 1 →
      (retryAux (fun _ => (.error (.http s) : Except ApiError α))
          refresh op maxR f remaining attempt).2 = .raised (.http s) ∧
      execCount (retryAux (fun _ => (.error (.http s) : Except ApiError α))
          refresh op maxR f remaining attempt).1 = remaining := by
  intro remaining
  induction remaining with
  | zero => intro attempt h _; exact absurd h (by omega)
  | succ r ih =>
    intro attempt _ hsum
    rcases Nat.eq_zero_or_pos r with hr | hr
    · subst hr
      have hlast : attempt = maxR := by omega
      simp [retryAux, h401, hcl, hlast, execCount_waits]
    · have hne : ¬ attempt = maxR := by omega
      have hrec := ih (attempt + 1) hr (by omega)
      simp [retryAux, h401, hcl, hne, execCount_waits, hrec.1, hrec.2]

/-- For an action that always fails with a 401 while the token refresh also
always fails, every iteration falls through to the next attempt, and the
refresh error is re-raised on the last iteration. -/
theorem retryAux_always401_refresh_error (te : ApiError) (op : String)
    (maxR : Nat) (f : ℚ) :
    ∀ remaining attempt, 0 < remaining → attempt + remaining = maxR + 1 →
      (retryAux (fun _ => (.error (.http 401) : Except ApiError Unit))
          (fun _ => .error te) op maxR f remaining attempt).2 = .raised te ∧
      execCount (retryAux (fun _ => (.error (.http 401) : Except ApiError Unit))
          (fun _ => .error te) op maxR f remaining attempt).1 = remaining := by
  intro remaining
  induction remaining with
  | zero => intro attempt h _; exact absurd h (by omega)
  | succ r ih =>
    intro attempt _ hsum
    rcases Nat.eq_zero_or_pos r with hr | hr
    · subst hr
      have hlast : attempt = maxR := by omega
      simp [retryAux, hlast, execCount_waits]
    · have hne : ¬ attempt = maxR := by omega
      have hrec := ih (attempt + 1) hr (by omega)
      simp [retryAux, hne, execCount_waits, hrec.1, hrec.2]

/-- For an action that always fails with a 401 while the token refresh always
succeeds, every iteration executes `continue`, so the loop completes without
returning and the final `Exception("Max retries ... exceeded ...")` fires. -/
theorem retryAux_always401_refresh_ok (op : String) (maxR : Nat) (f : ℚ) :
    ∀ remaining attempt,
      (retryAux (fun _ => (.error (.http 401) : Except ApiError Unit))
          (fun _ => .ok ()) op maxR f remaining attempt).2 =
        .exhausted op maxR := by
  intro remaining
  induction remaining with
  | zero => intro attempt; rfl
  | succ r ih => intro attempt; simp [retryAux, ih (attempt + 1)]

end BulkSign

open BulkSign

/-- C1: for an action that always fails with an HTTP 5xx error, run with retry
budget 3 and backoff factor `f`, the trace is execute, sleep 2·f, execute,
sleep 4·f, execute, sleep 8·f, execute: no wait precedes the 1st execution and
the waits before the 2nd, 3rd and 4th executions are exactly 2·f, 4·f and 8·f
seconds. -/
theorem retry_backoff_ordering (f : ℚ) (s : Nat) (h : 500 ≤ s)
    (refresh : Nat → Except ApiError Unit) (op : String) :
    retry_with_backoff
        (fun _ => (.error (.http s) : Except ApiError Unit)) refresh op 3 f =
      ([.exec, .sleep (2 * f), .exec, .sleep (4 * f), .exec,
        .sleep (8 * f), .exec], .raised (.http s)) := by
  have h401 : ¬ s = 401 := by omega
  have hcl : ¬ (400 ≤ s ∧ s < 500) := by omega
  simp only [retry_with_backoff, retryAux, h401, hcl, if_false, if_true,
    Nat.lt_irrefl, Nat.zero_lt_succ]
  norm_num

/-- C1 witness: concrete instance with `s = 500`, `f = 1`. -/
theorem retry_backoff_ordering_witness :
    (500 ≤ 500) ∧
    retry_with_backoff
        (fun _ => (.error (.http 500) : Except ApiError Unit))
        (fun _ => .ok ()) "op" 3 1 =
      ([.exec, .sleep (2 * 1), .exec, .sleep (4 * 1), .exec,
        .sleep (8 * 1), .exec], .raised (.http 500)) :=
  ⟨by norm_num,
   retry_backoff_ordering 1 500 (by norm_num) (fun _ => .ok ()) "op"⟩

/-- C3: a client-side HTTP error (4xx other than 401) is re-raised after
exactly one execution of the action, with no retry and no backoff sleep. -/
theorem client_error_no_retry (s : Nat) (h4 : 400 ≤ s) (h5 : s < 500)
    (h401 : ¬ s = 401) (refresh : Nat → Except ApiError Unit) (op : String)
    (maxR : Nat) (f : ℚ) :
    retry_with_backoff
        (fun _ => (.error (.http s) : Except ApiError Unit)) refresh op maxR f
      = ([.exec], .raised (.http s)) := by
  simp [retry_with_backoff, retryAux, h401, h4, h5]

/-- C3 witness: concrete instance with `s = 404`. -/
theorem client_error_no_retry_witness :
    (400 ≤ 404 ∧ 404 < 500 ∧ ¬ 404 = 401) ∧
    retry_with_backoff
        (fun _ => (.error (.http 404) : Except ApiError Unit))
        (fun _ => .ok ()) "Request Sign" 3 1
      = ([.exec], .raised (.http 404)) :=
  ⟨by norm_num,
   client_error_no_retry 404 (by norm_num) (by norm_num) (by norm_num)
     (fun _ => .ok ()) "Request Sign" 3 1⟩

/-- C2 counterexample: an action that fails with 401 on its first execution
and succeeds on its second, with a successful token refresh, budget 3 and
backoff factor 1. The claim says the post-refresh retry happens immediately
with no backoff sleep, but the trace contains a `sleep 2` (= 2^1 · f seconds)
between the two executions: the `continue` at line 352 re-enters the loop at
the `time.sleep` of line 342. -/
theorem auth_retry_immediate_counterexample :
    retry_with_backoff
        (fun a => if a = 0 then (.error (.http 401) : Except ApiError Unit)
                  else .ok ())
        (fun _ => .ok ()) "Auth OTP" 3 1
      = ([.exec, .sleep 2, .exec], .ok ()) := by
  simp [retry_with_backoff, retryAux]

/-- C2 amended: on a 401 failure the engine refreshes the top-level access
token and retries, but the retry is preceded by the normal exponential-backoff
sleep (`2^n · f` seconds before the execution of attempt `n`), not performed
immediately; if the token refresh itself fails, the refresh error is
propagated only once the retry budget is exhausted, after `budget + 1`
executions of the action. -/
theorem auth_retry_amended (f : ℚ) (budget : Nat) (h : 1 ≤ budget)
    (te : ApiError) (op : String) :
    (retry_with_backoff
        (fun a => if a = 0 then (.error (.http 401) : Except ApiError Unit)
                  else .ok ())
        (fun _ => .ok ()) op budget f
      = ([.exec, .sleep (2 * f), .exec], .ok ())) ∧
    ((retry_with_backoff (fun _ => (.error (.http 401) : Except ApiError Unit))
        (fun _ => .error te) op budget f).2 = .raised te ∧
     execCount (retry_with_backoff
        (fun _ => (.error (.http 401) : Except ApiError Unit))
        (fun _ => .error te) op budget f).1 = budget + 1) := by
  obtain ⟨b, rfl⟩ : ∃ b, budget = b + 1 :=
    ⟨budget - 1, by omega⟩
  refine ⟨?_, ?_⟩
  · simp [retry_with_backoff, retryAux]
  · exact retryAux_always401_refresh_error te op (b + 1) f (b + 2) 0
      (by omega) (by omega)

/-- C2 amended witness: concrete instance with `f = 1`, budget 3. -/
theorem auth_retry_amended_witness :
    (1 ≤ 3) ∧
    ((retry_with_backoff
        (fun a => if a = 0 then (.error (.http 401) : Except ApiError Unit)
                  else .ok ())
        (fun _ => .ok ()) "Auth OTP" 3 1
      = ([.exec, .sleep (2 * 1), .exec], .ok ())) ∧
    ((retry_with_backoff (fun _ => (.error (.http 401) : Except ApiError Unit))
        (fun _ => .error .network) "Auth OTP" 3 1).2 = .raised .network ∧
     execCount (retry_with_backoff
        (fun _ => (.error (.http 401) : Except ApiError Unit))
        (fun _ => .error .network) "Auth OTP" 3 1).1 = 3 + 1)) :=
  ⟨by norm_num, auth_retry_amended 1 3 (by norm_num) .network "Auth OTP"⟩

/-- C4 counterexample: an action that always fails with HTTP 500, budget 3.
When the budget is exhausted the engine re-raises the underlying `HTTPError`
(the bare `raise` at line 365), not the "retries exhausted" `Exception` of
line 378 that carries the operation name and attempt count. -/
theorem retries_exhausted_counterexample :
    (retry_with_backoff (fun _ => (.error (.http 500) : Except ApiError Unit))
        (fun _ => .ok ()) "Upload File 1" 3 1).2 = .raised (.http 500) ∧
    ¬ (retry_with_backoff
        (fun _ => (.error (.http 500) : Except ApiError Unit))
        (fun _ => .ok ()) "Upload File 1" 3 1).2
      = .exhausted "Upload File 1" 3 := by
  have h := retryAux_server_error Unit 500 (by norm_num) (by norm_num)
    (fun _ => .ok ()) "Upload File 1" 3 1 4 0 (by norm_num) (by norm_num)
  have h1 : (retry_with_backoff
      (fun _ => (.error (.http 500) : Except ApiError Unit))
      (fun _ => .ok ()) "Upload File 1" 3 1).2 = .raised (.http 500) := h.1
  refine ⟨h1, ?_⟩
  rw [h1]
  intro hc
  exact RetryResult.noConfusion hc

/-- C4 amended: when every execution of an action fails with a server error
(5xx), exhausting the budget re-raises the last underlying error after
`budget + 1` executions — it does not produce the "retries exhausted" error;
the "retries exhausted" error, which does carry the operation name and the
retry budget, is raised only when the loop completes without re-raising,
i.e. when every failure was a 401 recovered by a successful token refresh. -/
theorem retries_exhausted_amended (op : String) (budget : Nat) (f : ℚ)
    (s : Nat) (h : 500 ≤ s) (refresh : Nat → Except ApiError Unit) :
    ((retry_with_backoff (fun _ => (.error (.http s) : Except ApiError Unit))
        refresh op budget f).2 = .raised (.http s) ∧
     execCount (retry_with_backoff
        (fun _ => (.error (.http s) : Except ApiError Unit))
        refresh op budget f).1 = budget + 1) ∧
    (retry_with_backoff (fun _ => (.error (.http 401) : Except ApiError Unit))
        (fun _ => .ok ()) op budget f).2 = .exhausted op budget := by
  refine ⟨?_, retryAux_always401_refresh_ok op budget f (budget + 1) 0⟩
  exact retryAux_server_error Unit s (by omega) (by omega) refresh op budget f
    (budget + 1) 0 (by omega) (by omega)

/-- C4 amended witness: concrete instance with `s = 500`, budget 3, `f = 1`. -/
theorem retries_exhausted_amended_witness :
    (500 ≤ 500) ∧
    (((retry_with_backoff
        (fun _ => (.error (.http 500) : Except ApiError Unit))
        (fun _ => .ok ()) "Execute Sign" 3 1).2 = .raised (.http 500) ∧
     execCount (retry_with_backoff
        (fun _ => (.error (.http 500) : Except ApiError Unit))
        (fun _ => .ok ()) "Execute Sign" 3 1).1 = 3 + 1) ∧
    (retry_with_backoff (fun _ => (.error (.http 401) : Except ApiError Unit))
        (fun _ => .ok ()) "Execute Sign" 3 1).2 = .exhausted "Execute Sign" 3) :=
  ⟨by norm_num,
   retries_exhausted_amended "Execute Sign" 3 1 500 (by norm_num)
     (fun _ => .ok ())⟩

/-- C5: for every action run through `_record_timing`, exactly one
`TimingResult` is appended, with status `SUCCESS` when the action succeeds
and `FAILED` when it fails, and the action's outcome (value or error) is
propagated unchanged to the caller. -/
theorem record_timing_one_record (α : Type) (op : String)
    (act : Except ApiError α) (ts : List TimingResult) :
    (record_timing op act ts).2 =
      ts ++ [⟨op, match act with
                  | .ok _ => "SUCCESS"
                  | .error _ => "FAILED"⟩] ∧
    (record_timing op act ts).1 = act := by
  cases act <;> simp [record_timing]

/-- Decoding an encoded list of strings gives it back. -/
theorem decodeStrList_map_str (l : List String) :
    decodeStrList (l.map JsonValue.str) = some l := by
  induction l with
  | nil => rfl
  | cons h t ih => simp [decodeStrList, asStr, ih]

/-- C6: saving a checkpoint and loading it back succeeds and returns a state
whose uploaded-file list (in order), request identifier and completed-steps
list are identical to those saved (only the timestamp is rewritten by
`save`). -/
theorem checkpoint_roundtrip (c : CheckpointData) (now : String) :
    CheckpointData.loadJson (CheckpointData.saveJson c now) =
      some ⟨c.request_id, c.access_token, c.user_token, c.uploaded_files,
            c.completed_steps, c.last_completed_step, now, c.id_rsa⟩ := by
  simp [CheckpointData.loadJson, CheckpointData.saveJson, lookupField,
    asStr, asStrList, decodeStrList_map_str, List.find?]

/-- C9: after a fully successful run (the final step `"Check Sign Status"` is
in the checkpoint's completed steps and the run was not interrupted), the
`finally` block of `run` leaves the checkpoint file on disk: the
`os.remove("checkpoint.json")` at line 601 is commented out, so the snapshot
is never removed even though the log claims it was. -/
theorem checkpoint_survives_successful_run (cp : CheckpointData) (b : Bool)
    (_h : "Check Sign Status" ∈ cp.completed_steps) :
    run_finalize false b cp = true := by
  simp [run_finalize]

/-- C9 witness: a checkpoint of a fully completed run; the file remains. -/
theorem checkpoint_survives_successful_run_witness :
    ("Check Sign Status" ∈
      (CheckpointData.mk "abc123" "tok" "utok" ["f1.pdf"]
        ["Get JWT Token", "Upload Files", "Request Sign", "Get User Token",
         "Auth using OTP", "Execute Sign", "Check Sign Status"]
        "Check Sign Status" "t" "id1").completed_steps) ∧
    run_finalize false false
      (CheckpointData.mk "abc123" "tok" "utok" ["f1.pdf"]
        ["Get JWT Token", "Upload Files", "Request Sign", "Get User Token",
         "Auth using OTP", "Execute Sign", "Check Sign Status"]
        "Check Sign Status" "t" "id1") = true :=
  ⟨by decide,
   checkpoint_survives_successful_run _ false (by decide)⟩

/-- C7: once a signer-session identifier is captured — the checkpoint's
`id_rsa` is non-empty, which holds both after a live extraction (line 703)
and when a checkpoint was restored — re-invoking `_execute_request_signing`
performs no signing-request submission: it only restores the identifier into
the state, and invoking it again from that state is exactly the identity
(a no-op). Moreover every successful invocation (the live-capture path
included) leaves the state's and the checkpoint's identifiers equal, so the
captured situation persists. -/
theorem request_sign_noop (s : SigningTestState) (cp : CheckpointData)
    (server : Nat → Except ApiError (Option String))
    (refresh : Nat → Except ApiError Unit) (maxR : Nat) (f : ℚ)
    (h : cp.id_rsa ≠ "") :
    execute_request_signing s cp server refresh maxR f
      = ({ s with id_rsa := cp.id_rsa }, cp, 0, .ok ()) ∧
    execute_request_signing { s with id_rsa := cp.id_rsa } cp server refresh
        maxR f
      = ({ s with id_rsa := cp.id_rsa }, cp, 0, .ok ()) ∧
    (∀ (s₀ : SigningTestState) (cp₀ : CheckpointData)
        (s' : SigningTestState) (cp' : CheckpointData) (n : Nat),
      execute_request_signing s₀ cp₀ server refresh maxR f
          = (s', cp', n, .ok ()) → cp'.id_rsa = s'.id_rsa) := by
  refine ⟨by simp [execute_request_signing, h], ?_, ?_⟩
  · simp [execute_request_signing, h]
  · intro s₀ cp₀ s' cp' n hEq
    by_cases hc : cp₀.id_rsa = ""
    · rw [execute_request_signing] at hEq
      simp only [hc, ne_eq, not_true_eq_false, if_false] at hEq
      by_cases hu : s₀.uploaded_files = []
      · simp [hu] at hEq
      · simp only [hu, if_false] at hEq
        cases hr : (retry_with_backoff (requestSignAttempt server) refresh
            "Request Sign" maxR f).2 with
        | ok i =>
          simp only [hr, Prod.mk.injEq] at hEq
          obtain ⟨hs, hcp, -⟩ := hEq
          rw [← hs, ← hcp]
        | raised e => simp [hr] at hEq
        | exhausted o m => simp [hr] at hEq
    · simp [execute_request_signing, hc] at hEq
      obtain ⟨hs, hcp, -⟩ := hEq
      rw [← hs, ← hcp]

/-- C7 witness: a state and checkpoint holding identifier `"sess1"`. -/
theorem request_sign_noop_witness :
    ((CheckpointData.mk "r1" "t" "u" ["f1.pdf"] ["Upload Files"] "Upload Files"
        "ts" "sess1").id_rsa ≠ "") ∧
    (execute_request_signing
        (SigningTestState.mk "t" "u" ["f1.pdf"] "r1" "andri" "")
        (CheckpointData.mk "r1" "t" "u" ["f1.pdf"] ["Upload Files"]
          "Upload Files" "ts" "sess1")
        (fun _ => .ok (some "https://x?id=sess1&c=1")) (fun _ => .ok ()) 3 1
      = (SigningTestState.mk "t" "u" ["f1.pdf"] "r1" "andri" "sess1",
         CheckpointData.mk "r1" "t" "u" ["f1.pdf"] ["Upload Files"]
           "Upload Files" "ts" "sess1", 0, .ok ()) ∧
    execute_request_signing
        (SigningTestState.mk "t" "u" ["f1.pdf"] "r1" "andri" "sess1")
        (CheckpointData.mk "r1" "t" "u" ["f1.pdf"] ["Upload Files"]
          "Upload Files" "ts" "sess1")
        (fun _ => .ok (some "https://x?id=sess1&c=1")) (fun _ => .ok ()) 3 1
      = (SigningTestState.mk "t" "u" ["f1.pdf"] "r1" "andri" "sess1",
         CheckpointData.mk "r1" "t" "u" ["f1.pdf"] ["Upload Files"]
           "Upload Files" "ts" "sess1", 0, .ok ()) ∧
    (∀ (s₀ : SigningTestState) (cp₀ : CheckpointData)
        (s' : SigningTestState) (cp' : CheckpointData) (n : Nat),
      execute_request_signing s₀ cp₀
          (fun _ => .ok (some "https://x?id=sess1&c=1")) (fun _ => .ok ()) 3 1
          = (s', cp', n, .ok ()) → cp'.id_rsa = s'.id_rsa)) :=
  ⟨by decide,
   request_sign_noop
     (SigningTestState.mk "t" "u" ["f1.pdf"] "r1" "andri" "")
     (CheckpointData.mk "r1" "t" "u" ["f1.pdf"] ["Upload Files"]
       "Upload Files" "ts" "sess1")
     (fun _ => .ok (some "https://x?id=sess1&c=1")) (fun _ => .ok ()) 3 1
     (by decide)⟩

/-- A status that answers `"PENDING"` on every check never hits the `break`,
so the loop runs all its remaining iterations and times out. -/
theorem checkStatusAux_pending (remaining : Nat) :
    ∀ counter, checkStatusAux (fun _ => .ok "PENDING") remaining counter
      = (counter + remaining, .timeout) := by
  induction remaining with
  | zero => intro counter; rfl
  | succ r ih =>
    intro counter
    simp [checkStatusAux, ih (counter + 1)]
    omega

/-- With the status sequence PENDING, PENDING, DONE and at least 3 available
iterations, the loop breaks on the third check. -/
theorem checkStatusAux_seq_done (k : Nat) :
    checkStatusAux
      (fun n => (.ok (["PENDING", "PENDING", "DONE"].getD (n - 1) "PENDING") :
        Except ApiError String)) (k + 3) 0 = (3, .done) := by
  show checkStatusAux _ (k + 2 + 1) 0 = (3, .done)
  rw [checkStatusAux]
  norm_num
  rw [if_neg (by decide : ¬ ("PENDING" : String) = "DONE")]
  show checkStatusAux _ (k + 1 + 1) 1 = (3, .done)
  rw [checkStatusAux]
  norm_num
  rw [if_neg (by decide : ¬ ("PENDING" : String) = "DONE")]
  show checkStatusAux _ (k + 0 + 1) 2 = (3, .done)
  rw [checkStatusAux]
  norm_num

/-- Polling treats a failing check exactly like a successful non-terminal
answer: the loop recurses in both cases. -/
theorem checkStatusAux_swallow (check : Nat → Except ApiError String)
    (remaining : Nat) :
    ∀ counter, checkStatusAux check remaining counter
      = checkStatusAux (errorsAsPending check) remaining counter := by
  induction remaining with
  | zero => intro counter; rfl
  | succ r ih =>
    intro counter
    rw [checkStatusAux, checkStatusAux]
    cases hc : check (counter + 1) with
    | ok m => simp [errorsAsPending, hc, ih (counter + 1)]
    | error e => simp [errorsAsPending, hc, ih (counter + 1)]

/-- A status check whose HTTP call fails with a 500 on every retry attempt
exhausts its doubled retry budget and surfaces the underlying error. -/
theorem statusCheckOnce_server_error (refresh : Nat → Except ApiError Unit)
    (maxR : Nat) (f : ℚ) (c : Nat) :
    statusCheckOnce (fun _ _ => .error (.http 500)) refresh maxR f c
      = .error (.http 500) := by
  have h := retryAux_server_error String 500 (by norm_num) (by norm_num)
    refresh "Status Check" (maxR * 2) f (maxR * 2 + 1) 0 (by omega) (by omega)
  have h1 : (retry_with_backoff
      (fun _ => (.error (.http 500) : Except ApiError String)) refresh
      "Status Check" (maxR * 2) f).2 = .raised (.http 500) := h.1
  simp only [statusCheckOnce]
  rw [h1]

/-- C8: with the status sequence `["PENDING", "PENDING", "DONE"]` the polling
step performs exactly 3 status checks and stops reporting success (the
`break` at line 843), provided the configured maximum is at least 3 (the
config default `max_status_checks` is 300); with a status that is `"PENDING"`
on every check it performs exactly the configured maximum number of checks
and stops reporting timeout. -/
theorem check_status_termination (maxChecks : Nat) (h : 3 ≤ maxChecks) :
    execute_check_status
        (fun n => .ok (["PENDING", "PENDING", "DONE"].getD (n - 1) "PENDING"))
        maxChecks = (3, .done) ∧
    ∀ m : Nat, execute_check_status (fun _ => .ok "PENDING") m
      = (m, .timeout) := by
  constructor
  · obtain ⟨k, rfl⟩ : ∃ k, maxChecks = k + 3 := ⟨maxChecks - 3, by omega⟩
    exact checkStatusAux_seq_done k
  · intro m
    simpa [execute_check_status] using checkStatusAux_pending m 0

/-- C8 witness: the configured maximum of 300 checks. -/
theorem check_status_termination_witness :
    (3 ≤ 300) ∧
    (execute_check_status
        (fun n => .ok (["PENDING", "PENDING", "DONE"].getD (n - 1) "PENDING"))
        300 = (3, .done) ∧
    ∀ m : Nat, execute_check_status (fun _ => .ok "PENDING") m
      = (m, .timeout)) :=
  ⟨by norm_num, check_status_termination 300 (by norm_num)⟩

/-- C10: the status-polling step never propagates an error to the run loop:
(i) replacing every failing status check by a successful non-terminal answer
leaves the polling result unchanged, i.e. per-check failures are swallowed by
the `except Exception ... pass` of lines 845-848 and polling continues;
(ii) even when every check fails with a server error on every retry attempt,
so that each per-check retry budget of `max_retries * 2` is exhausted,
polling still performs the full configured number of checks and returns a
timeout normally; (iii) consequently the step, run through `_record_timing`
inside the `run` loop, appends a timing record with status `SUCCESS` and is
marked completed in the checkpoint — even on a polling timeout. -/
theorem check_status_never_propagates
    (refresh : Nat → Except ApiError Unit) (maxR : Nat) (f : ℚ)
    (maxChecks : Nat) (cp : CheckpointData) (ts : List TimingResult) :
    (∀ check, execute_check_status check maxChecks
        = execute_check_status (errorsAsPending check) maxChecks) ∧
    execute_check_status
        (statusCheckOnce (fun _ _ => .error (.http 500)) refresh maxR f)
        maxChecks = (maxChecks, .timeout) ∧
    (∀ check,
      (run_step "Check Sign Status"
          (execute_check_status_step check maxChecks) cp ts).2
        = ts ++ [⟨"Check Sign Status", "SUCCESS"⟩] ∧
      ∃ cp', (run_step "Check Sign Status"
          (execute_check_status_step check maxChecks) cp ts).1 = .ok cp' ∧
        "Check Sign Status" ∈ cp'.completed_steps) := by
  refine ⟨fun check => checkStatusAux_swallow check maxChecks 0, ?_, ?_⟩
  · have hfun : errorsAsPending
        (statusCheckOnce (fun _ _ => .error (.http 500)) refresh maxR f)
        = fun _ => .ok "PENDING" := by
      funext n
      simp [errorsAsPending, statusCheckOnce_server_error refresh maxR f n]
    calc execute_check_status
          (statusCheckOnce (fun _ _ => .error (.http 500)) refresh maxR f)
          maxChecks
        = execute_check_status (errorsAsPending
            (statusCheckOnce (fun _ _ => .error (.http 500)) refresh maxR f))
            maxChecks :=
          checkStatusAux_swallow _ maxChecks 0
      _ = execute_check_status (fun _ => .ok "PENDING") maxChecks := by
          rw [hfun]
      _ = (maxChecks, .timeout) := by
          simpa [execute_check_status] using checkStatusAux_pending maxChecks 0
  · intro check
    constructor
    · simp [run_step, record_timing, execute_check_status_step]
    · refine ⟨{ cp with
          completed_steps :=
            if "Check Sign Status" ∈ cp.completed_steps
            then cp.completed_steps
            else cp.completed_steps ++ ["Check Sign Status"],
          last_completed_step := "Check Sign Status" }, ?_, ?_⟩
      · simp [run_step, record_timing, execute_check_status_step]
      · by_cases hmem : "Check Sign Status" ∈ cp.completed_steps <;>
          simp [hmem]
